import Mathlib

/-!
Verification of the rule-evaluation core of the Security Architecture
Design Studio (src/Workshop1.py): the coverage scorer, gap analyzer,
attack-path simulator, trust-jump detector and the design-state
mutation handlers (zone sync, data-flow creation).

The Python code is shallowly embedded: Python dicts (which preserve
insertion order and have unique keys) become association lists
`List (String × _)` in declaration order, Python sets are modelled by
membership / `dedup` on lists, Python `round` (round-half-to-even on
the exact rational value) is `pyRound`, and the Streamlit session
state becomes an explicit `DesignState` record.
-/

/-- Python `round` on an exact rational: nearest integer, ties to even
(banker's rounding). -/
def pyRound (q : ℚ) : ℤ :=
  if q - ⌊q⌋ < 1/2 then ⌊q⌋
  else if 1/2 < q - ⌊q⌋ then ⌊q⌋ + 1
  else if Even ⌊q⌋ then ⌊q⌋ else ⌊q⌋ + 1

theorem pyRound_eq_floor_or (q : ℚ) : pyRound q = ⌊q⌋ ∨ pyRound q = ⌊q⌋ + 1 := by
  unfold pyRound
  split_ifs <;> simp

theorem floor_le_pyRound (q : ℚ) : ⌊q⌋ ≤ pyRound q := by
  rcases pyRound_eq_floor_or q with h | h <;> omega

theorem pyRound_le_floor_add_one (q : ℚ) : pyRound q ≤ ⌊q⌋ + 1 := by
  rcases pyRound_eq_floor_or q with h | h <;> omega

theorem le_pyRound_of_le {n : ℤ} {q : ℚ} (h : (n : ℚ) ≤ q) : n ≤ pyRound q :=
  le_trans (Int.le_floor.mpr h) (floor_le_pyRound q)

theorem pyRound_le_of_le {n : ℤ} {q : ℚ} (h : q ≤ (n : ℚ)) : pyRound q ≤ n := by
  unfold pyRound
  have hfl : ⌊q⌋ ≤ n := by
    have := Int.floor_le_floor h
    simpa using this
  have hstep : ¬(q - ⌊q⌋ < 1/2) → ⌊q⌋ + 1 ≤ n := by
    intro h2
    rcases lt_or_eq_of_le h with h3 | h3
    · have : ⌊q⌋ < n := Int.floor_lt.mpr h3
      omega
    · exfalso
      rw [h3] at h2
      simp [Int.floor_intCast] at h2
  split_ifs with h1 h2 h3
  · exact hfl
  · exact hstep h1
  · exact hfl
  · exact hstep h1

theorem pyRound_mono {q r : ℚ} (h : q ≤ r) : pyRound q ≤ pyRound r := by
  have hf : ⌊q⌋ ≤ ⌊r⌋ := Int.floor_le_floor h
  rcases eq_or_lt_of_le hf with he | hl
  · by_cases h1 : q - ⌊q⌋ < 1/2
    · have e1 : pyRound q = ⌊q⌋ := by unfold pyRound; rw [if_pos h1]
      rw [e1, he]
      exact floor_le_pyRound r
    · have h1' : ¬(r - ⌊r⌋ < 1/2) := by
        rw [← he]
        push_neg at h1 ⊢
        linarith
      by_cases h2 : 1/2 < q - ⌊q⌋
      · have h2' : 1/2 < r - ⌊r⌋ := by rw [← he]; linarith
        have e1 : pyRound q = ⌊q⌋ + 1 := by unfold pyRound; rw [if_neg h1, if_pos h2]
        have e2 : pyRound r = ⌊r⌋ + 1 := by unfold pyRound; rw [if_neg h1', if_pos h2']
        rw [e1, e2, he]
      · by_cases h3 : Even ⌊q⌋
        · have e1 : pyRound q = ⌊q⌋ := by unfold pyRound; rw [if_neg h1, if_neg h2, if_pos h3]
          rw [e1, he]
          exact floor_le_pyRound r
        · have e1 : pyRound q = ⌊q⌋ + 1 := by
            unfold pyRound; rw [if_neg h1, if_neg h2, if_neg h3]
          have h3' : ¬ Even ⌊r⌋ := by rw [← he]; exact h3
          have e2 : pyRound r = ⌊r⌋ + 1 := by
            unfold pyRound
            by_cases h4 : 1/2 < r - ⌊r⌋
            · rw [if_neg h1', if_pos h4]
            · rw [if_neg h1', if_neg h4, if_neg h3']
          rw [e1, e2, he]
  · have hq : pyRound q ≤ ⌊q⌋ + 1 := pyRound_le_floor_add_one q
    have hr : ⌊r⌋ ≤ pyRound r := floor_le_pyRound r
    omega

/-- Association-list lookup (first match), modelling Python dict access
on insertion-ordered dicts. -/
def dlookup {α : Type} : List (String × α) → String → Option α
  | [], _ => none
  | p :: ps, k => if p.1 = k then some p.2 else dlookup ps k

/-- Python `dict.get(k, default)` for control lists
(`controls_by_zone.get(zone, [])`). -/
def dget (m : List (String × List String)) (k : String) : List String :=
  (dlookup m k).getD []

/-- The keys of an insertion-ordered dict. -/
def dkeys {α : Type} (m : List (String × α)) : List String :=
  m.map Prod.fst

/-- Catalog of zones with their trust levels (src/Workshop1.py, `ZONES`;
only the `trust` field is read by the evaluators). -/
def ZONES : List (String × ℕ) :=
  [("Internet Zone", 0),
   ("DMZ (Perimeter Zone)", 1),
   ("Application Zone", 2),
   ("Data Zone", 3),
   ("Management Zone", 4)]

/-- Catalog of controls grouped by category (src/Workshop1.py,
`CONTROLS`; the evaluators only consult the category structure and the
control names, i.e. the dict keys). -/
def CONTROLS : List (String × List String) :=
  [("Identity & Access",
    ["MFA (Multi-Factor Authentication)", "SSO (Single Sign-On)",
     "PAM (Privileged Access Management)", "JIT Access (Just-in-Time)",
     "RBAC (Role-Based Access Control)", "Zero Standing Privileges",
     "Certificate-Based Auth (mTLS)"]),
   ("Network Security",
    ["Next-Gen Firewall (NGFW)", "Micro-segmentation",
     "WAF (Web Application Firewall)", "IDS/IPS", "Network ACLs",
     "VPN / ZTNA", "DNS Filtering / RPZ"]),
   ("Data Protection",
    ["Encryption at Rest (AES-256)", "Encryption in Transit (TLS 1.3)",
     "Tokenization", "DLP (Data Loss Prevention)",
     "Database Encryption (TDE)", "Key Management (HSM/KMS)",
     "Data Masking"]),
   ("Detection & Response",
    ["SIEM", "EDR (Endpoint Detection & Response)",
     "SOAR (Security Orchestration)", "Log Aggregation & UEBA",
     "Honeypots / Deception", "Threat Intelligence Feed",
     "Cloud Security Posture Mgmt (CSPM)"]),
   ("Application Security",
    ["API Gateway with Rate Limiting", "Input Validation & Sanitization",
     "Secrets Management (Vault)", "SBOM & Dependency Scanning",
     "Container Security (Runtime)", "CSP (Content Security Policy)",
     "RASP (Runtime App Self-Protection)"])]

/-- An attack scenario: ordered kill-chain stages
`(zone, stage_label, technique)` and the scenario's ordered
`blocking_controls` dict mapping control name to the zone list in which
it blocks (the literal string "All Zones" may appear in that list). -/
structure AttackScenario where
  stages : List (String × String × String)
  blocking_controls : List (String × List String)
deriving DecidableEq, Repr

/-- The four attack scenarios of the catalog (src/Workshop1.py,
`ATTACKS`; the `goal` field is presentation-only and omitted). -/
def ATTACKS : List (String × AttackScenario) :=
  [("External Attacker — Web App Breach",
    { stages :=
        [("Internet Zone", "Recon",
          "Scan public assets, identify web tech stack via HTTP headers, scrape for employee emails"),
         ("DMZ (Perimeter Zone)", "Initial Access",
          "SQLi via vulnerable login form; WAF bypass using double-encoding technique"),
         ("Application Zone", "Lateral Movement",
          "Pivot from web server to app server via unprotected internal API call"),
         ("Data Zone", "Exfiltration",
          "Dump customer table via app-layer DB connection. Exfil via HTTPS to attacker-controlled server")],
      blocking_controls :=
        [("WAF (Web Application Firewall)", ["DMZ (Perimeter Zone)"]),
         ("Input Validation & Sanitization", ["Application Zone"]),
         ("Micro-segmentation", ["Application Zone"]),
         ("DLP (Data Loss Prevention)", ["Application Zone"]),
         ("Encryption in Transit (TLS 1.3)", ["All Zones"])] }),
   ("Phishing → Ransomware",
    { stages :=
        [("Internet Zone", "Delivery",
          "Spear phishing email with malicious Office macro attachment sent to finance team"),
         ("Application Zone", "Execution",
          "User opens attachment; macro executes PowerShell, downloads loader from C2 via HTTPS"),
         ("Application Zone", "Lateral Movement",
          "Credential dumping via LSASS; Pass-the-Hash to pivot to other workstations and file servers"),
         ("Data Zone", "Impact",
          "Encrypt file shares, databases, and detected backup systems. Delete VSS shadow copies")],
      blocking_controls :=
        [("MFA (Multi-Factor Authentication)", ["All Zones"]),
         ("EDR (Endpoint Detection & Response)", ["Application Zone"]),
         ("SIEM", ["Management Zone"]),
         ("Micro-segmentation", ["Application Zone"]),
         ("DNS Filtering / RPZ", ["Internet Zone"])] }),
   ("Insider Threat — Privileged User Data Theft",
    { stages :=
        [("Management Zone", "Internal Recon",
          "Admin uses existing PAM session to browse database schemas and identify high-value tables"),
         ("Data Zone", "Collection",
          "Bulk export of customer and IP data using standing DB admin privileges to local CSV"),
         ("Application Zone", "Staging",
          "Copy files to personal laptop via USB / unapproved cloud sync tool"),
         ("Internet Zone", "Exfiltration",
          "Upload staged files to personal Google Drive over corporate network during lunch")],
      blocking_controls :=
        [("PAM (Privileged Access Management)", ["Management Zone", "Data Zone"]),
         ("JIT Access (Just-in-Time)", ["Management Zone"]),
         ("Log Aggregation & UEBA", ["Management Zone"]),
         ("DLP (Data Loss Prevention)", ["Application Zone", "Internet Zone"]),
         ("Zero Standing Privileges", ["All Zones"])] }),
   ("Supply Chain Compromise (SolarWinds-style)",
    { stages :=
        [("Application Zone", "Initial Compromise",
          "Trojanized build of a trusted software update deployed to production (signed, legitimate-looking)"),
         ("Application Zone", "Persistence",
          "Backdoor beacons to C2 over HTTPS with randomized delays to evade detection"),
         ("Management Zone", "Privilege Escalation",
          "Use initial foothold to harvest service account credentials with high privileges"),
         ("Data Zone", "Collection/Exfil",
          "Exfiltrate sensitive data via encrypted DNS tunneling or slow HTTPS upload to appear as normal traffic")],
      blocking_controls :=
        [("SBOM & Dependency Scanning", ["Application Zone"]),
         ("SIEM", ["Management Zone"]),
         ("DNS Filtering / RPZ", ["Internet Zone"]),
         ("EDR (Endpoint Detection & Response)", ["Application Zone"]),
         ("Secrets Management (Vault)", ["Application Zone", "Data Zone"])] })]

/-- The mutable design state (Streamlit session keys `selected_zones`,
`controls_by_zone`, `data_flows` of src/Workshop1.py `init`). -/
structure DesignState where
  selected_zones : List String
  controls_by_zone : List (String × List String)
  data_flows : List String
deriving DecidableEq, Repr

/-- A design with nothing selected, assigned or documented. -/
def emptyDesign : DesignState :=
  { selected_zones := [], controls_by_zone := [], data_flows := [] }

/-- `all_controls_flat` (src/Workshop1.py lines 421-425): concatenation
of all per-zone control lists, in zone insertion order. -/
def all_controls_flat (d : DesignState) : List String :=
  (d.controls_by_zone.map Prod.snd).flatten

/-- `len(set(l))` in Python: number of distinct elements. -/
def distinctCount (l : List String) : ℕ :=
  l.dedup.length

/-- Number of catalog categories with at least one member among the
assigned control names (the `cats_hit` loop of `coverage_score`,
src/Workshop1.py lines 429-432). -/
def catsHit (flat : List String) : ℕ :=
  CONTROLS.countP (fun cat => flat.any (fun c => decide (c ∈ cat.2)))

/-- `coverage_score` (src/Workshop1.py lines 427-435). -/
def coverage_score (d : DesignState) : ℤ :=
  pyRound (((catsHit (all_controls_flat d) : ℚ) / (CONTROLS.length : ℚ)) * 50 +
    min (((distinctCount (all_controls_flat d) : ℚ) / 15) * 50) 50)

/-- Finding severities of the gap analyzer (the emoji-tagged severity
strings of src/Workshop1.py `gap_analysis`). -/
inductive Severity
  | critical
  | high
  | medium
  | info
deriving DecidableEq, Repr

/-- `gap_analysis` (src/Workshop1.py lines 465-493), translated
condition by condition in source order; the issue/remediation prose is
abbreviated to a stable label per rule. -/
def gap_analysis (d : DesignState) : List (Severity × String) :=
  (if "MFA (Multi-Factor Authentication)" ∉ all_controls_flat d then
    [(Severity.critical, "No MFA anywhere")] else []) ++
  (if "Encryption at Rest (AES-256)" ∉ all_controls_flat d ∧
      "Data Zone" ∈ d.selected_zones then
    [(Severity.critical, "Data Zone present but no encryption at rest")] else []) ++
  (if "SIEM" ∉ all_controls_flat d then
    [(Severity.critical, "No SIEM")] else []) ++
  (if "WAF (Web Application Firewall)" ∉ all_controls_flat d ∧
      "DMZ (Perimeter Zone)" ∈ d.selected_zones then
    [(Severity.high, "DMZ without WAF")] else []) ++
  (if "PAM (Privileged Access Management)" ∉ all_controls_flat d ∧
      "Management Zone" ∈ d.selected_zones then
    [(Severity.high, "Management Zone without PAM")] else []) ++
  (if "Micro-segmentation" ∉ all_controls_flat d ∧
      "Application Zone" ∈ d.selected_zones then
    [(Severity.medium, "Application Zone without micro-segmentation")] else []) ++
  (if "Encryption in Transit (TLS 1.3)" ∉ all_controls_flat d then
    [(Severity.medium, "No TLS in transit")] else []) ++
  (if d.data_flows = [] then
    [(Severity.info, "No data flows documented")] else [])

/-- The gap analyzer as an ordered rule table (the formulation of
spec section 4.2): a fixed list of (finding, predicate) pairs. -/
def gapRules : List ((Severity × String) × (DesignState → Bool)) :=
  [((Severity.critical, "No MFA anywhere"),
    fun d => decide ("MFA (Multi-Factor Authentication)" ∉ all_controls_flat d)),
   ((Severity.critical, "Data Zone present but no encryption at rest"),
    fun d => decide ("Encryption at Rest (AES-256)" ∉ all_controls_flat d ∧
      "Data Zone" ∈ d.selected_zones)),
   ((Severity.critical, "No SIEM"),
    fun d => decide ("SIEM" ∉ all_controls_flat d)),
   ((Severity.high, "DMZ without WAF"),
    fun d => decide ("WAF (Web Application Firewall)" ∉ all_controls_flat d ∧
      "DMZ (Perimeter Zone)" ∈ d.selected_zones)),
   ((Severity.high, "Management Zone without PAM"),
    fun d => decide ("PAM (Privileged Access Management)" ∉ all_controls_flat d ∧
      "Management Zone" ∈ d.selected_zones)),
   ((Severity.medium, "Application Zone without micro-segmentation"),
    fun d => decide ("Micro-segmentation" ∉ all_controls_flat d ∧
      "Application Zone" ∈ d.selected_zones)),
   ((Severity.medium, "No TLS in transit"),
    fun d => decide ("Encryption in Transit (TLS 1.3)" ∉ all_controls_flat d)),
   ((Severity.info, "No data flows documented"),
    fun d => decide (d.data_flows = []))]

/-- The rule-table reading of the analyzer: keep, in table order, the
findings whose predicate holds. -/
def gapFindings (d : DesignState) : List (Severity × String) :=
  (gapRules.filter (fun r => r.2 d)).map Prod.fst

/-- Per-stage blocking-control computation of the Attack Path Simulator
(src/Workshop1.py lines 1139-1146): walk the scenario's
`blocking_controls` dict in declaration order and collect every control
that is assigned to the stage's zone and declared blocking for that
zone (or for "All Zones"). -/
def stageBlocking (d : DesignState) (s : AttackScenario) (zone : String) :
    List String :=
  s.blocking_controls.foldl
    (fun acc p =>
      if p.1 ∈ dget d.controls_by_zone zone ∧ (zone ∈ p.2 ∨ "All Zones" ∈ p.2)
      then acc ++ [p.1] else acc)
    []

/-- `is_blocked = len(blocking) > 0` (src/Workshop1.py line 1148). -/
def stageBlocked (d : DesignState) (s : AttackScenario) (zone : String) : Bool :=
  decide (0 < (stageBlocking d s zone).length)

/-- The per-stage verdicts of the simulator: for each stage, its zone,
whether it is blocked, and by which controls (src/Workshop1.py
lines 1137-1154). -/
def simulate (d : DesignState) (s : AttackScenario) :
    List (String × Bool × List String) :=
  s.stages.map (fun st => (st.1, stageBlocked d s st.1, stageBlocking d s st.1))

/-- The aggregate protection percentage `pct_bl` (src/Workshop1.py
lines 1197-1199): share of the scenario's recommended blocking controls
present anywhere in the design, 0 when the scenario declares none. -/
def protection_pct (d : DesignState) (s : AttackScenario) : ℤ :=
  let total := s.blocking_controls.length
  let haveCount := s.blocking_controls.countP
    (fun p => decide (p.1 ∈ all_controls_flat d))
  if total = 0 then 0
  else pyRound ((haveCount : ℚ) / (total : ℚ) * 100)

/-- Trust level of a zone as the UI reads it:
`ZONES.get(z, {}).get("trust", 0)` (src/Workshop1.py lines 929-930). -/
def trustOf (z : String) : ℕ :=
  (dlookup ZONES z).getD 0

/-- The trust-jump computation `jump = abs(st_trust - dt_trust)`
(src/Workshop1.py line 931). -/
def detect_jump (a b : String) : ℕ :=
  ((trustOf a : ℤ) - (trustOf b : ℤ)).natAbs

/-- The trust-jump warning is rendered exactly under the guard of
src/Workshop1.py lines 928-932: distinct zones whose jump exceeds 1. -/
def trustJumpWarning (a b : String) : Prop :=
  a ≠ b ∧ 1 < detect_jump a b

/-- Result of the Add-flow button handler: the updated design and the
validation error shown, if any. -/
structure AddFlowResult where
  design : DesignState
  error : Option String
deriving DecidableEq, Repr

/-- The Add-flow button handler (src/Workshop1.py lines 918-925):
append the formatted flow only when the description is non-empty and
the zones differ, otherwise show a validation error and leave
`data_flows` unchanged. -/
def addFlow (d : DesignState) (src dst proto desc : String) : AddFlowResult :=
  if desc ≠ "" ∧ src ≠ dst then
    { design := { d with data_flows :=
        d.data_flows ++ [src ++ "  →[" ++ proto ++ "]→  " ++ dst ++ "  |  " ++ desc] },
      error := none }
  else if src = dst then
    { design := d, error := some "Source and destination must differ." }
  else
    { design := d, error := some "Describe the data flow." }

/-- The zone-sync step of the Zones tab (src/Workshop1.py lines
746-752): give every newly selected zone an empty control list, then
delete the entry of every no-longer-selected zone. -/
def syncZones (selected : List String) (m : List (String × List String)) :
    List (String × List String) :=
  (selected.foldl
    (fun acc z => if z ∈ dkeys acc then acc else acc ++ [(z, [])]) m).filter
      (fun p => decide (p.1 ∈ selected))

/-- Appending one control to a zone's assigned list (the
`controls_by_zone[zone] = ...` update of the Controls tab,
src/Workshop1.py line 837, restricted to adding a single control):
append to the zone's entry, creating it if absent. -/
def addControl (d : DesignState) (z c : String) : DesignState :=
  { d with controls_by_zone :=
      if z ∈ dkeys d.controls_by_zone then
        d.controls_by_zone.map (fun p => if p.1 = z then (p.1, p.2 ++ [c]) else p)
      else
        d.controls_by_zone ++ [(z, [c])] }

theorem stageBlocking_aux (d : DesignState) (zone : String) :
    ∀ (l : List (String × List String)) (acc : List String),
      l.foldl
        (fun acc p =>
          if p.1 ∈ dget d.controls_by_zone zone ∧ (zone ∈ p.2 ∨ "All Zones" ∈ p.2)
          then acc ++ [p.1] else acc) acc
        = acc ++ (l.filter
            (fun p => decide (p.1 ∈ dget d.controls_by_zone zone ∧
              (zone ∈ p.2 ∨ "All Zones" ∈ p.2)))).map Prod.fst := by
  intro l
  induction l with
  | nil => intro acc; simp
  | cons p ps ih =>
    intro acc
    by_cases h : p.1 ∈ dget d.controls_by_zone zone ∧ (zone ∈ p.2 ∨ "All Zones" ∈ p.2)
    · simp [List.filter_cons, h, ih]
    · simp [List.filter_cons, h, ih]

theorem stageBlocking_eq_filter (d : DesignState) (s : AttackScenario) (zone : String) :
    stageBlocking d s zone =
      (s.blocking_controls.filter
        (fun p => decide (p.1 ∈ dget d.controls_by_zone zone ∧
          (zone ∈ p.2 ∨ "All Zones" ∈ p.2)))).map Prod.fst := by
  unfold stageBlocking
  rw [stageBlocking_aux]
  simp

/-- C1: a stage at zone `z` is marked blocked iff some control of the
scenario's `blocking_controls` is assigned to `z` in the design and is
declared blocking for `z` (or for "All Zones"); the reported
blocking-control list is exactly that candidate set in the
`blocking_controls` declaration order. -/
theorem attack_stage_spec (d : DesignState) (s : AttackScenario) (zone : String) :
    (stageBlocked d s zone = true ↔
      ∃ c zs, (c, zs) ∈ s.blocking_controls ∧
        c ∈ dget d.controls_by_zone zone ∧ (zone ∈ zs ∨ "All Zones" ∈ zs)) ∧
    stageBlocking d s zone =
      (s.blocking_controls.filter
        (fun p => decide (p.1 ∈ dget d.controls_by_zone zone ∧
          (zone ∈ p.2 ∨ "All Zones" ∈ p.2)))).map Prod.fst := by
  refine ⟨?_, stageBlocking_eq_filter d s zone⟩
  rw [stageBlocked, stageBlocking_eq_filter d s zone]
  simp only [decide_eq_true_eq, List.length_map, List.length_pos,
    ne_eq, List.filter_eq_nil_iff, decide_eq_true_eq, not_forall]
  constructor
  · rintro ⟨p, hp, hcond⟩
    rw [not_not] at hcond
    exact ⟨p.1, p.2, hp, hcond⟩
  · rintro ⟨c, zs, hmem, h1, h2⟩
    exact ⟨(c, zs), hmem, by tauto⟩

/-- C3: the aggregate protection percentage is
round(100 · |recommended controls present anywhere in the design| /
|recommended controls|); it depends only on `blocking_controls` (never
on the per-stage verdicts or the visited zones), and an empty
`blocking_controls` yields the sentinel 0. -/
theorem protection_pct_spec :
    (∀ (d : DesignState) (s : AttackScenario), s.blocking_controls ≠ [] →
      protection_pct d s =
        pyRound (100 *
          ((s.blocking_controls.filter
            (fun p => decide (p.1 ∈ all_controls_flat d))).length : ℚ) /
          (s.blocking_controls.length : ℚ))) ∧
    (∀ (d : DesignState) (s₁ s₂ : AttackScenario),
      s₁.blocking_controls = s₂.blocking_controls →
      protection_pct d s₁ = protection_pct d s₂) ∧
    (∀ (d : DesignState) (s : AttackScenario), s.blocking_controls = [] →
      protection_pct d s = 0) := by
  refine ⟨?_, ?_, ?_⟩
  · intro d s h
    have hlen : s.blocking_controls.length ≠ 0 := by
      simpa [List.length_eq_zero] using h
    unfold protection_pct
    rw [if_neg hlen, List.countP_eq_length_filter]
    congr 1
    ring
  · intro d s₁ s₂ h
    unfold protection_pct
    rw [h]
  · intro d s h
    unfold protection_pct
    rw [h]
    simp

/-- A one-stage SQLi-at-the-DMZ scenario blocked by a WAF there (the
concrete scenario of the spec's testable properties). -/
def demoScenario : AttackScenario :=
  { stages := [("DMZ (Perimeter Zone)", "Initial Access", "SQLi")],
    blocking_controls := [("WAF (Web Application Firewall)", ["DMZ (Perimeter Zone)"])] }

/-- A design whose only control is a WAF in the Application Zone — a
zone the demo scenario never visits. -/
def appWafDesign : DesignState :=
  { selected_zones := ["Application Zone"],
    controls_by_zone := [("Application Zone", ["WAF (Web Application Firewall)"])],
    data_flows := [] }

theorem protection_pct_spec_witness :
    demoScenario.blocking_controls ≠ [] ∧
    protection_pct appWafDesign demoScenario =
      pyRound (100 *
        ((demoScenario.blocking_controls.filter
          (fun p => decide (p.1 ∈ all_controls_flat appWafDesign))).length : ℚ) /
        (demoScenario.blocking_controls.length : ℚ)) ∧
    protection_pct appWafDesign
      { stages := [], blocking_controls := [] } = 0 :=
  ⟨by decide,
   protection_pct_spec.1 appWafDesign demoScenario (by decide),
   protection_pct_spec.2.2 appWafDesign { stages := [], blocking_controls := [] } rfl⟩

theorem catsHit_le_five (flat : List String) : catsHit flat ≤ 5 :=
  le_trans (List.countP_le_length _) (by rfl)

theorem controls_length_q : ((CONTROLS.length : ℕ) : ℚ) = 5 := by
  norm_num [CONTROLS]

/-- C2: the coverage score is round(50·(categories hit)/(total
categories) + min(50·|flat|/15, 50)); it is an integer in [0, 100],
and the empty design scores 0. -/
theorem coverage_score_spec :
    (∀ d : DesignState,
      coverage_score d =
        pyRound (50 * (catsHit (all_controls_flat d) : ℚ) / (CONTROLS.length : ℚ) +
          min (50 * (distinctCount (all_controls_flat d) : ℚ) / 15) 50)) ∧
    (∀ d : DesignState, 0 ≤ coverage_score d ∧ coverage_score d ≤ 100) ∧
    coverage_score emptyDesign = 0 := by
  refine ⟨?_, ?_, ?_⟩
  · intro d
    unfold coverage_score
    have h1 : ((catsHit (all_controls_flat d) : ℚ) / (CONTROLS.length : ℚ)) * 50 =
        50 * (catsHit (all_controls_flat d) : ℚ) / (CONTROLS.length : ℚ) := by ring
    have h2 : ((distinctCount (all_controls_flat d) : ℚ) / 15) * 50 =
        50 * (distinctCount (all_controls_flat d) : ℚ) / 15 := by ring
    rw [h1, h2]
  · intro d
    unfold coverage_score
    have hhit : ((catsHit (all_controls_flat d) : ℕ) : ℚ) ≤ 5 := by
      exact_mod_cast catsHit_le_five (all_controls_flat d)
    have hhit0 : (0 : ℚ) ≤ ((catsHit (all_controls_flat d) : ℕ) : ℚ) := by positivity
    have hdc0 : (0 : ℚ) ≤ ((distinctCount (all_controls_flat d) : ℕ) : ℚ) := by positivity
    have hcat : ((catsHit (all_controls_flat d) : ℚ) / (CONTROLS.length : ℚ)) * 50 ≤ 50 := by
      rw [controls_length_q]
      linarith
    have hcat0 : (0 : ℚ) ≤ ((catsHit (all_controls_flat d) : ℚ) / (CONTROLS.length : ℚ)) * 50 := by
      rw [controls_length_q]
      linarith
    have hcnt : min (((distinctCount (all_controls_flat d) : ℚ) / 15) * 50) 50 ≤ 50 :=
      min_le_right _ _
    have hcnt0 : (0 : ℚ) ≤ min (((distinctCount (all_controls_flat d) : ℚ) / 15) * 50) 50 :=
      le_min (by linarith) (by norm_num)
    constructor
    · exact le_pyRound_of_le (by push_cast; linarith)
    · exact pyRound_le_of_le (by push_cast; linarith)
  · have h1 : all_controls_flat emptyDesign = [] := rfl
    have h2 : catsHit [] = 0 := rfl
    have h3 : distinctCount [] = 0 := rfl
    unfold coverage_score
    rw [h1, h2, h3, controls_length_q]
    norm_num [pyRound]

theorem mem_all_controls_flat {x : String} {d : DesignState} :
    x ∈ all_controls_flat d ↔ ∃ p ∈ d.controls_by_zone, x ∈ p.2 := by
  unfold all_controls_flat
  simp only [List.mem_flatten, List.mem_map]
  constructor
  · rintro ⟨l, ⟨p, hp, rfl⟩, hx⟩
    exact ⟨p, hp, hx⟩
  · rintro ⟨p, hp, hx⟩
    exact ⟨p.2, ⟨p, hp, rfl⟩, hx⟩

theorem all_controls_flat_addControl_subset (d : DesignState) (z c : String) :
    ∀ x ∈ all_controls_flat d, x ∈ all_controls_flat (addControl d z c) := by
  intro x hx
  rw [mem_all_controls_flat] at hx ⊢
  obtain ⟨p, hp, hxp⟩ := hx
  unfold addControl
  by_cases hz : z ∈ dkeys d.controls_by_zone
  · rw [if_pos hz]
    refine ⟨if p.1 = z then (p.1, p.2 ++ [c]) else p, List.mem_map_of_mem _ hp, ?_⟩
    by_cases hpz : p.1 = z
    · rw [if_pos hpz]
      exact List.mem_append_left _ hxp
    · rw [if_neg hpz]
      exact hxp
  · rw [if_neg hz]
    exact ⟨p, List.mem_append_left _ hp, hxp⟩

theorem catsHit_mono {l l' : List String} (h : ∀ x ∈ l, x ∈ l') :
    catsHit l ≤ catsHit l' := by
  unfold catsHit
  refine List.countP_mono_left ?_
  intro cat _ hcat
  rw [List.any_eq_true] at hcat ⊢
  obtain ⟨x, hx, hx2⟩ := hcat
  exact ⟨x, h x hx, hx2⟩

theorem distinctCount_mono {l l' : List String} (h : ∀ x ∈ l, x ∈ l') :
    distinctCount l ≤ distinctCount l' := by
  unfold distinctCount
  rw [← List.card_toFinset, ← List.card_toFinset]
  refine Finset.card_le_card ?_
  intro x hx
  rw [List.mem_toFinset] at hx ⊢
  exact h x hx

/-- C8: with zones and flows fixed, appending a catalog-recognized
control to any zone's list never decreases the coverage score. -/
theorem coverage_score_monotone (d : DesignState) (z c : String)
    (_hc : ∃ cat ∈ CONTROLS, c ∈ cat.2) :
    coverage_score d ≤ coverage_score (addControl d z c) := by
  have hsub := all_controls_flat_addControl_subset d z c
  have hch : catsHit (all_controls_flat d) ≤
      catsHit (all_controls_flat (addControl d z c)) := catsHit_mono hsub
  have hdc : distinctCount (all_controls_flat d) ≤
      distinctCount (all_controls_flat (addControl d z c)) := distinctCount_mono hsub
  unfold coverage_score
  refine pyRound_mono ?_
  have hchq : ((catsHit (all_controls_flat d) : ℕ) : ℚ) ≤
      ((catsHit (all_controls_flat (addControl d z c)) : ℕ) : ℚ) := by exact_mod_cast hch
  have hdcq : ((distinctCount (all_controls_flat d) : ℕ) : ℚ) ≤
      ((distinctCount (all_controls_flat (addControl d z c)) : ℕ) : ℚ) := by
    exact_mod_cast hdc
  have h1 : ((catsHit (all_controls_flat d) : ℚ) / (CONTROLS.length : ℚ)) * 50 ≤
      ((catsHit (all_controls_flat (addControl d z c)) : ℚ) / (CONTROLS.length : ℚ)) * 50 := by
    rw [controls_length_q]
    linarith
  have h2 : min (((distinctCount (all_controls_flat d) : ℚ) / 15) * 50) 50 ≤
      min (((distinctCount (all_controls_flat (addControl d z c)) : ℚ) / 15) * 50) 50 :=
    min_le_min (by linarith) (le_refl _)
  linarith

theorem coverage_score_monotone_witness :
    (∃ cat ∈ CONTROLS, "SIEM" ∈ cat.2) ∧
    coverage_score emptyDesign ≤
      coverage_score (addControl emptyDesign "Management Zone" "SIEM") :=
  ⟨by decide,
   coverage_score_monotone emptyDesign "Management Zone" "SIEM" (by decide)⟩

/-- C4: the gap analysis equals the fixed rule table filtered by its
predicates, in table order (never re-sorted by severity), and on the
empty design it returns exactly the Critical MFA, Critical SIEM, Medium
encryption-in-transit and Info no-flows findings, in that order. -/
theorem filterMap_rule_cons (r : (Severity × String) × (DesignState → Bool))
    (rs : List ((Severity × String) × (DesignState → Bool))) (d : DesignState) :
    ((r :: rs).filter (fun x => x.2 d)).map Prod.fst =
      (if r.2 d = true then [r.1] else []) ++
        (rs.filter (fun x => x.2 d)).map Prod.fst := by
  rw [List.filter_cons]
  by_cases h : r.2 d = true
  · rw [if_pos h, if_pos h]
    rfl
  · rw [if_neg h, if_neg h]
    rfl

theorem ite_decide_list (P : Prop) [Decidable P] (a b : List (Severity × String)) :
    (if decide P = true then a else b) = if P then a else b := by
  by_cases h : P
  · rw [if_pos h, if_pos (by simpa using h)]
  · rw [if_neg h, if_neg (by simpa using h)]

/-- C4: the gap analysis equals the fixed rule table filtered by its
predicates, in table order (never re-sorted by severity), and on the
empty design it returns exactly the Critical MFA, Critical SIEM, Medium
encryption-in-transit and Info no-flows findings, in that order. -/
theorem gap_analysis_spec :
    (∀ d : DesignState, gap_analysis d = gapFindings d) ∧
    gap_analysis emptyDesign =
      [(Severity.critical, "No MFA anywhere"),
       (Severity.critical, "No SIEM"),
       (Severity.medium, "No TLS in transit"),
       (Severity.info, "No data flows documented")] := by
  constructor
  · intro d
    unfold gap_analysis gapFindings gapRules
    rw [filterMap_rule_cons, filterMap_rule_cons, filterMap_rule_cons,
      filterMap_rule_cons, filterMap_rule_cons, filterMap_rule_cons,
      filterMap_rule_cons, filterMap_rule_cons, List.filter_nil]
    simp only [ite_decide_list, List.map_nil, List.append_nil, List.append_assoc]
  · rfl

theorem trustOf_mem (a : String) (ta : ℕ) (h : (a, ta) ∈ ZONES) : trustOf a = ta := by
  fin_cases h <;> rfl

/-- C6: for catalog zones the trust-jump detector returns exactly the
absolute trust-level difference; the literal case Internet Zone →
Data Zone gives 3; the warning is shown precisely when the jump
exceeds 1. -/
theorem detect_jump_spec :
    (∀ (a : String) (ta : ℕ) (b : String) (tb : ℕ),
      (a, ta) ∈ ZONES → (b, tb) ∈ ZONES →
      detect_jump a b = ((ta : ℤ) - (tb : ℤ)).natAbs) ∧
    detect_jump "Internet Zone" "Data Zone" = 3 ∧
    (∀ a b : String, trustJumpWarning a b ↔ 1 < detect_jump a b) := by
  refine ⟨?_, by decide, ?_⟩
  · intro a ta b tb ha hb
    unfold detect_jump
    rw [trustOf_mem a ta ha, trustOf_mem b tb hb]
  · intro a b
    constructor
    · exact fun h => h.2
    · intro h
      refine ⟨?_, h⟩
      intro heq
      subst heq
      simp [detect_jump, sub_self] at h

theorem detect_jump_spec_witness :
    detect_jump "Internet Zone" "Data Zone" = (((0 : ℕ) : ℤ) - ((3 : ℕ) : ℤ)).natAbs ∧
    trustJumpWarning "Internet Zone" "Data Zone" :=
  ⟨detect_jump_spec.1 "Internet Zone" 0 "Data Zone" 3 (by decide) (by decide),
   (detect_jump_spec.2.2 "Internet Zone" "Data Zone").mpr (by decide)⟩

/-- A scenario whose single stage names a zone absent from the zone
catalog, with an otherwise well-formed blocking-control table. -/
def ghostScenario : AttackScenario :=
  { stages := [("Orbital Station Zone", "Initial Access", "technique outside the catalog")],
    blocking_controls := [("WAF (Web Application Firewall)", ["DMZ (Perimeter Zone)"])] }

/-- A design with a WAF assigned in the DMZ. -/
def dmzWafDesign : DesignState :=
  { selected_zones := ["DMZ (Perimeter Zone)"],
    controls_by_zone := [("DMZ (Perimeter Zone)", ["WAF (Web Application Firewall)"])],
    data_flows := [] }

/-- A design whose only assigned control name is unknown to the
control catalog. -/
def unknownControlDesign : DesignState :=
  { selected_zones := ["Data Zone"],
    controls_by_zone := [("Data Zone", ["Totally Unknown Control"])],
    data_flows := [] }

/-- C5 counterexample: on a scenario referencing the catalog-absent
zone "Orbital Station Zone" the simulator raises nothing — it returns
an ordinary verdict list treating the dangling reference as a silent
no-op (the code has no raise path at all: the stage loop reads
`ZONES.get(zone, {})` and `controls_by_zone.get(zone, [])`); moreover
an unknown control name contributes a nonzero coverage score (3, via
the distinct-control count), not "zero coverage value". -/
theorem simulator_no_error_counterexample :
    "Orbital Station Zone" ∉ dkeys ZONES ∧
    simulate dmzWafDesign ghostScenario = [("Orbital Station Zone", false, [])] ∧
    coverage_score unknownControlDesign = 3 := by
  refine ⟨by decide, by decide, ?_⟩
  have h1 : all_controls_flat unknownControlDesign = ["Totally Unknown Control"] := rfl
  have h2 : catsHit ["Totally Unknown Control"] = 0 := rfl
  have h3 : distinctCount ["Totally Unknown Control"] = 1 := rfl
  unfold coverage_score
  rw [h1, h2, h3, controls_length_q]
  norm_num [pyRound, min_def]

/-- C5 amended: the attack simulator never errors — it returns one
verdict per stage; a zone with no entry in `controls_by_zone` (in
particular any zone absent from the catalog, since assigned keys are
selected catalog zones) is treated as a silent no-op: its stage is
reported unblocked with an empty blocking list. -/
theorem simulator_silent_no_op (d : DesignState) (s : AttackScenario) (z : String)
    (h : dlookup d.controls_by_zone z = none) :
    (simulate d s).length = s.stages.length ∧
    stageBlocked d s z = false ∧ stageBlocking d s z = [] := by
  have hget : dget d.controls_by_zone z = [] := by rw [dget, h]; rfl
  have hb : stageBlocking d s z = [] := by
    rw [stageBlocking_eq_filter]
    rw [List.filter_eq_nil_iff.mpr ?_]
    · rfl
    · intro p _
      simp [hget]
  refine ⟨by simp [simulate], ?_, hb⟩
  rw [stageBlocked, hb]
  rfl

theorem simulator_silent_no_op_witness :
    dlookup dmzWafDesign.controls_by_zone "Orbital Station Zone" = none ∧
    ((simulate dmzWafDesign ghostScenario).length = ghostScenario.stages.length ∧
      stageBlocked dmzWafDesign ghostScenario "Orbital Station Zone" = false ∧
      stageBlocking dmzWafDesign ghostScenario "Orbital Station Zone" = []) :=
  ⟨by decide,
   simulator_silent_no_op dmzWafDesign ghostScenario "Orbital Station Zone" (by decide)⟩

/-- C7 counterexample: a flow with distinct source and destination but
an empty description is rejected (error shown, `data_flows` unchanged),
so "flows with source distinct from destination are appended" fails as
stated. -/
theorem addFlow_counterexample :
    "Internet Zone" ≠ "Data Zone" ∧
    (addFlow emptyDesign "Internet Zone" "Data Zone" "HTTPS/TLS 1.3" "").design.data_flows
      = emptyDesign.data_flows ∧
    (addFlow emptyDesign "Internet Zone" "Data Zone" "HTTPS/TLS 1.3" "").error
      = some "Describe the data flow." := by
  decide

/-- C7 amended: creating a flow with equal source and destination is
rejected with the validation error and leaves the design unchanged;
a flow with distinct zones and a non-empty description is appended. -/
theorem addFlow_spec (d : DesignState) (src dst proto desc : String) :
    (src = dst →
      (addFlow d src dst proto desc).error = some "Source and destination must differ." ∧
      (addFlow d src dst proto desc).design = d) ∧
    (src ≠ dst → desc ≠ "" →
      (addFlow d src dst proto desc).error = none ∧
      (addFlow d src dst proto desc).design.data_flows =
        d.data_flows ++ [src ++ "  →[" ++ proto ++ "]→  " ++ dst ++ "  |  " ++ desc]) := by
  constructor
  · intro h
    subst h
    simp [addFlow]
  · intro h1 h2
    simp [addFlow, h1, h2]

theorem addFlow_spec_witness :
    ((addFlow emptyDesign "DMZ (Perimeter Zone)" "DMZ (Perimeter Zone)" "SSH" "creds").error
        = some "Source and destination must differ." ∧
      (addFlow emptyDesign "DMZ (Perimeter Zone)" "DMZ (Perimeter Zone)" "SSH" "creds").design
        = emptyDesign) ∧
    ((addFlow emptyDesign "Internet Zone" "Data Zone" "SSH" "creds").error = none ∧
      (addFlow emptyDesign "Internet Zone" "Data Zone" "SSH" "creds").design.data_flows =
        emptyDesign.data_flows ++
          ["Internet Zone" ++ "  →[" ++ "SSH" ++ "]→  " ++ "Data Zone" ++ "  |  " ++ "creds"]) :=
  ⟨(addFlow_spec emptyDesign "DMZ (Perimeter Zone)" "DMZ (Perimeter Zone)" "SSH" "creds").1 rfl,
   (addFlow_spec emptyDesign "Internet Zone" "Data Zone" "SSH" "creds").2
     (by decide) (by decide)⟩

/-- C10: a flow whose description is empty is rejected even when the
zones differ — the error is shown and `data_flows` is unchanged. -/
theorem addFlow_empty_desc_rejected (d : DesignState) (src dst proto : String)
    (h : src ≠ dst) :
    (addFlow d src dst proto "").design.data_flows = d.data_flows ∧
    (addFlow d src dst proto "").error = some "Describe the data flow." := by
  simp [addFlow, h]

theorem addFlow_empty_desc_rejected_witness :
    "Internet Zone" ≠ "DMZ (Perimeter Zone)" ∧
    ((addFlow emptyDesign "Internet Zone" "DMZ (Perimeter Zone)" "SSH" "").design.data_flows
        = emptyDesign.data_flows ∧
      (addFlow emptyDesign "Internet Zone" "DMZ (Perimeter Zone)" "SSH" "").error
        = some "Describe the data flow.") :=
  ⟨by decide,
   addFlow_empty_desc_rejected emptyDesign "Internet Zone" "DMZ (Perimeter Zone)" "SSH"
     (by decide)⟩

theorem syncStep_keys_subset (sel : List String) :
    ∀ (acc : List (String × List String)) (x : String), x ∈ dkeys acc →
      x ∈ dkeys (sel.foldl
        (fun acc z => if z ∈ dkeys acc then acc else acc ++ [(z, [])]) acc) := by
  induction sel with
  | nil => intro acc x hx; simpa using hx
  | cons s sel ih =>
    intro acc x hx
    simp only [List.foldl_cons]
    refine ih _ x ?_
    by_cases h : s ∈ dkeys acc
    · rw [if_pos h]
      exact hx
    · rw [if_neg h]
      unfold dkeys at hx ⊢
      rw [List.map_append]
      exact List.mem_append_left _ hx

theorem mem_dkeys_syncFoldl (sel : List String) :
    ∀ (acc : List (String × List String)) (z : String), z ∈ sel →
      z ∈ dkeys (sel.foldl
        (fun acc z => if z ∈ dkeys acc then acc else acc ++ [(z, [])]) acc) := by
  induction sel with
  | nil => intro acc z hz; simp at hz
  | cons s sel ih =>
    intro acc z hz
    simp only [List.foldl_cons]
    rcases List.mem_cons.mp hz with rfl | hz2
    · refine syncStep_keys_subset sel _ z ?_
      by_cases h : z ∈ dkeys acc
      · rw [if_pos h]
        exact h
      · rw [if_neg h]
        unfold dkeys
        rw [List.map_append]
        refine List.mem_append_right _ ?_
        simp
    · exact ih _ z hz2

theorem syncFoldl_entries (sel : List String) :
    ∀ (acc : List (String × List String)) (p : String × List String),
      p ∈ sel.foldl
        (fun acc z => if z ∈ dkeys acc then acc else acc ++ [(z, [])]) acc →
      p ∈ acc ∨ p.2 = [] := by
  induction sel with
  | nil => intro acc p hp; exact Or.inl (by simpa using hp)
  | cons s sel ih =>
    intro acc p hp
    simp only [List.foldl_cons] at hp
    rcases ih _ p hp with h | h
    · by_cases hs : s ∈ dkeys acc
      · rw [if_pos hs] at h
        exact Or.inl h
      · rw [if_neg hs] at h
        rcases List.mem_append.mp h with h2 | h2
        · exact Or.inl h2
        · right
          have hps : p = (s, []) := by simpa using h2
          rw [hps]
    · exact Or.inr h

theorem dlookup_mem {α : Type} :
    ∀ (m : List (String × α)) (k : String) (v : α),
      dlookup m k = some v → (k, v) ∈ m := by
  intro m
  induction m with
  | nil => intro k v h; simp [dlookup] at h
  | cons p ps ih =>
    intro k v h
    simp only [dlookup] at h
    by_cases hk : p.1 = k
    · rw [if_pos hk] at h
      have hv : p.2 = v := by simpa using h
      have hp : p = (k, v) := by
        rw [← hk, ← hv]
      rw [← hp]
      exact List.mem_cons_self p ps
    · rw [if_neg hk] at h
      exact List.mem_cons_of_mem _ (ih k v h)

theorem mem_dkeys_exists_dlookup {α : Type} :
    ∀ (m : List (String × α)) (k : String),
      k ∈ dkeys m → ∃ v, dlookup m k = some v := by
  intro m
  induction m with
  | nil => intro k h; simp [dkeys] at h
  | cons p ps ih =>
    intro k h
    by_cases hk : p.1 = k
    · exact ⟨p.2, by simp [dlookup, hk]⟩
    · have h2 : k ∈ dkeys ps := by
        unfold dkeys at h
        rw [List.map_cons] at h
        rcases List.mem_cons.mp h with h3 | h3
        · exact absurd h3.symm hk
        · exact h3
      obtain ⟨v, hv⟩ := ih k h2
      exact ⟨v, by simp [dlookup, hk, hv]⟩

/-- C9: after the zone-sync step the key set of `controls_by_zone` is
exactly the set of selected zones, and every newly selected zone's
entry is initialized to the empty control list. -/
theorem syncZones_spec :
    (∀ (sel : List String) (m : List (String × List String)) (z : String),
      z ∈ dkeys (syncZones sel m) ↔ z ∈ sel) ∧
    (∀ (sel : List String) (m : List (String × List String)) (z : String),
      z ∈ sel → z ∉ dkeys m → dlookup (syncZones sel m) z = some []) := by
  have hkeys : ∀ sel m z, z ∈ dkeys (syncZones sel m) ↔ z ∈ sel := by
    intro sel m z
    unfold syncZones
    constructor
    · intro hz
      unfold dkeys at hz
      obtain ⟨p, hp, hpz⟩ := List.mem_map.mp hz
      have hsel := List.of_mem_filter hp
      rw [decide_eq_true_eq] at hsel
      rw [← hpz]
      exact hsel
    · intro hz
      have h1 := mem_dkeys_syncFoldl sel m z hz
      unfold dkeys at h1 ⊢
      obtain ⟨p, hp, hpz⟩ := List.mem_map.mp h1
      refine List.mem_map.mpr ⟨p, ?_, hpz⟩
      refine List.mem_filter.mpr ⟨hp, ?_⟩
      rw [decide_eq_true_eq, hpz]
      exact hz
  refine ⟨hkeys, ?_⟩
  intro sel m z hz hnm
  have h1 : z ∈ dkeys (syncZones sel m) := (hkeys sel m z).mpr hz
  obtain ⟨v, hv⟩ := mem_dkeys_exists_dlookup _ z h1
  have hmem : (z, v) ∈ syncZones sel m := dlookup_mem _ z v hv
  have hmem1 : (z, v) ∈ sel.foldl
      (fun acc z => if z ∈ dkeys acc then acc else acc ++ [(z, [])]) m := by
    unfold syncZones at hmem
    exact List.mem_of_mem_filter hmem
  rcases syncFoldl_entries sel m (z, v) hmem1 with h | h
  · exact absurd (List.mem_map.mpr ⟨(z, v), h, rfl⟩) hnm
  · rw [hv]
    simpa using h

theorem syncZones_spec_witness :
    ("Application Zone" ∈ dkeys (syncZones ["Application Zone"] [("Data Zone", ["DLP (Data Loss Prevention)"])])) ∧
    dlookup (syncZones ["Application Zone"] [("Data Zone", ["DLP (Data Loss Prevention)"])])
      "Application Zone" = some [] :=
  ⟨(syncZones_spec.1 ["Application Zone"] [("Data Zone", ["DLP (Data Loss Prevention)"])]
      "Application Zone").mpr (by decide),
   syncZones_spec.2 ["Application Zone"] [("Data Zone", ["DLP (Data Loss Prevention)"])]
     "Application Zone" (by decide) (by decide)⟩

theorem attack_stage_spec_witness :
    stageBlocked dmzWafDesign demoScenario "DMZ (Perimeter Zone)" = true ∧
    stageBlocking dmzWafDesign demoScenario "DMZ (Perimeter Zone)" =
      (demoScenario.blocking_controls.filter
        (fun p => decide (p.1 ∈ dget dmzWafDesign.controls_by_zone "DMZ (Perimeter Zone)" ∧
          ("DMZ (Perimeter Zone)" ∈ p.2 ∨ "All Zones" ∈ p.2)))).map Prod.fst :=
  ⟨(attack_stage_spec dmzWafDesign demoScenario "DMZ (Perimeter Zone)").1.mpr
      ⟨"WAF (Web Application Firewall)", ["DMZ (Perimeter Zone)"],
        by decide, by decide, by decide⟩,
   (attack_stage_spec dmzWafDesign demoScenario "DMZ (Perimeter Zone)").2⟩

theorem coverage_score_spec_witness :
    0 ≤ coverage_score emptyDesign ∧ coverage_score emptyDesign ≤ 100 :=
  coverage_score_spec.2.1 emptyDesign
